import Mathlib

/-!
# Verification of the tinc daemon process lifecycle (tincd.c) and observer (top.c)

Shallow embedding of the process-lifecycle code of the tinc VPN daemon
(`src/process.h`, which concatenates `process.h`, `tincd.c` and `top.c`)
and proofs about it.

The C code performs I/O and mutates global state; we embed it as pure
functions that return a *trace* of externally visible actions (messages
printed, files written or removed, sockets opened or closed, `exit`
calls, `execvp`) together with the resulting exit status.  Outcomes of
operating-system and library calls that the code branches on
(`check_pid`, `read_pid`, `kill`, `read_config_file`, `security_init`,
`setup_network_connections`, `geteuid`) are supplied through an
environment record, one field per call site, so every branch of the C
control flow is represented.
-/

namespace Tinc

/-- Externally visible actions of the daemon, in program order.
Each constructor corresponds to one effectful call in `tincd.c`. -/
inductive Action where
  /-- `fprintf(stderr, ...)` -/
  | stderr (s : String)
  /-- `printf(...)` -/
  | stdout (s : String)
  /-- `syslog(...)` -/
  | syslog (s : String)
  /-- `read_config_file(configfilename)` was invoked -/
  | readConfig
  /-- `write_pid(pidfilename)` succeeded: PID file now on disk -/
  | writePid
  /-- `remove_pid(pidfilename)`: PID file unlinked -/
  | removePid
  /-- `kill(pid, SIGTERM)` aimed at another tincd (from `kill_other`) -/
  | killPid (pid : Nat)
  /-- `kill(ppid, SIGTERM)`: signal the supervisor parent -/
  | killParent
  /-- `setup_signals()` -/
  | setupSignals
  /-- `setup_network_connections()` was invoked -/
  | setupNetwork
  /-- `close_network_connections()` -/
  | closeNetwork
  /-- `openlog(identname, ...)` -/
  | openlog
  /-- `closelog()` -/
  | closelog
  /-- entered `main_loop()` -/
  | mainLoop
  /-- `signal(SIGSEGV, sigsegv_square)`: second-strike handler installed -/
  | installSegvSquare
  /-- `execvp(g_argv[0], g_argv)`: re-exec attempt -/
  | execvp
  /-- `dump_conn_list()` -/
  | dumpConnList
  /-- `regenerate_keys()` -/
  | regenerateKeys
  /-- `exit(c)` / `return c` from `main` -/
  | exit (c : Nat)
deriving DecidableEq, Repr

/-- Message printed by `write_pidfile` when `check_pid` finds a live
tincd, exactly as formatted by the two `fprintf(stderr, ...)` calls
(netname present or absent). -/
def alreadyRunningMsg (netname : Option String) (pid : Nat) : String :=
  match netname with
  | some n => "A tincd is already running for net `" ++ n ++ "\x27 with pid " ++ toString pid ++ ".\n"
  | none => "A tincd is already running with pid " ++ toString pid ++ ".\n"

/-- Message printed by `kill_other` when `read_pid` fails. -/
def noOtherMsg (netname : Option String) : String :=
  match netname with
  | some n => "No other tincd is running for net `" ++ n ++ "\x27.\n"
  | none => "No other tincd is running.\n"

/-- Message printed by `kill_other` when `kill` failed with `ESRCH`. -/
def staleLockMsg : String := "Removing stale lock file.\n"

/-- Message printed by `main` when `geteuid()` is nonzero. -/
def rootMsg : String := "You must be root to run this program. sorry.\n"

/-- Stand-in for the version banner printed on `--version`. -/
def versionMsg : String := "tinc version banner"

/-- Stand-in for the help text printed by `usage(0)` on `--help`. -/
def usageMsg : String := "tinc usage text"

/-- Environment of one daemon invocation: the parsed command line
(fields mirroring the globals set by `parse_options`) and the outcomes
of the OS and library calls the C code branches on. -/
structure Env where
  /-- `show_version` set by `--version` -/
  showVersion : Bool := false
  /-- `show_help` set by `--help` -/
  showHelp : Bool := false
  /-- result of `geteuid()` -/
  euid : Nat := 0
  /-- `kill_tincd` set by `-k` / `--kill` -/
  killTincd : Bool := false
  /-- `do_detach`, cleared by `-D` / `--no-detach` -/
  doDetach : Bool := true
  /-- `debug_lvl` (number of `-d` flags) -/
  debugLvl : Nat := 0
  /-- `netname` set by `-n` -/
  netname : Option String := none
  /-- result of `check_pid(pidfilename)` in `write_pidfile`:
  `some pid` when the PID file names a live process -/
  existingPid : Option Nat := none
  /-- whether `write_pid(pidfilename)` succeeds (file not locked etc.) -/
  writePidOk : Bool := true
  /-- result of `read_pid(pidfilename)` in `kill_other` -/
  readPid : Option Nat := none
  /-- liveness oracle: `alive pid = false` iff `kill(pid, SIGTERM)`
  fails with `errno == ESRCH` (running as root, so no `EPERM`) -/
  alive : Nat → Bool := fun _ => true
  /-- whether `read_config_file(configfilename)` returns 0 (success) -/
  configOk : Bool := true
  /-- whether `security_init()` returns 0 (success) -/
  securityOk : Bool := true
  /-- whether `setup_network_connections()` returns 0 (success) -/
  networkOk : Bool := true

/-- `kill_other()` from `tincd.c`: read the PID file; if unreadable,
report and return 1.  Otherwise send SIGTERM; if that failed with
`ESRCH`, print the stale-lock message; in either case `remove_pid` and
return 0. -/
def kill_other (e : Env) : List Action × Nat :=
  match e.readPid with
  | none => ([Action.stderr (noOtherMsg e.netname)], 1)
  | some pid =>
    ([Action.killPid pid]
      ++ (if e.alive pid then [] else [Action.stderr staleLockMsg])
      ++ [Action.removePid], 0)

/-- `write_pidfile()` from `tincd.c`: if `check_pid` finds a live
tincd, print the already-running message and return 1; otherwise
`write_pid`, returning 1 if that fails. -/
def write_pidfile (e : Env) : List Action × Nat :=
  match e.existingPid with
  | some pid => ([Action.stderr (alreadyRunningMsg e.netname pid)], 1)
  | none => if e.writePidOk then ([Action.writePid], 0) else ([], 1)

/-- `detach()` from `tincd.c`, the path of the process that continues
as the daemon (when detaching this is the forked child; the supervisor
parent is modelled separately by `parentRun` below).  It writes the
PID file (propagating failure as `-1` the way the C function returns
`-1` when `write_pidfile()` is nonzero), then when detaching drops the
controlling terminal, calls `setsid` and SIGTERMs the parent, and
finally `chdir("/")` and `openlog`. -/
def detach (e : Env) : List Action × Int :=
  let wp := write_pidfile e
  if wp.2 ≠ 0 then (wp.1, -1)
  else (wp.1 ++ (if e.doDetach then [Action.killParent] else []) ++ [Action.openlog], 0)

/-- `cleanup_and_exit(c)` from `tincd.c`: close the network
connections, log the byte totals when `debug_lvl > 0`, `closelog`,
SIGTERM the recorded parent PID, and `exit(c)`.  Note: it does *not*
call `remove_pid`. -/
def cleanup_and_exit (debugLvl : Nat) (c : Nat) : List Action :=
  [Action.closeNetwork]
    ++ (if debugLvl > 0 then [Action.syslog "Total bytes written/read"] else [])
    ++ [Action.closelog, Action.killParent, Action.exit c]

/-- `main()` from `tincd.c` as a trace function: parse options
(already reflected in `e`), handle `--version` and `--help`, refuse to
run without euid 0, handle `--kill`, read the configuration, set up
signals, detach (note the C source reads `if(detach()) exit(0);`, so a
failed detach exits with status 0), initialise security, set up the
network (failure runs `cleanup_and_exit(1)`), and enter `main_loop`. -/
def tincMain (e : Env) : List Action × Nat :=
  if e.showVersion then ([Action.stdout versionMsg, Action.exit 0], 0)
  else if e.showHelp then ([Action.stdout usageMsg, Action.exit 0], 0)
  else if e.euid ≠ 0 then ([Action.stderr rootMsg, Action.exit 1], 1)
  else if e.killTincd then kill_other e
  else if ¬ e.configOk then ([Action.readConfig, Action.exit 1], 1)
  else
    let d := detach e
    let pre := [Action.readConfig, Action.setupSignals] ++ d.1
    if d.2 ≠ 0 then (pre ++ [Action.exit 0], 0)
    else if ¬ e.securityOk then (pre ++ [Action.exit 1], 1)
    else if ¬ e.networkOk then (pre ++ [Action.setupNetwork] ++ cleanup_and_exit e.debugLvl 1, 1)
    else (pre ++ [Action.setupNetwork, Action.mainLoop] ++ cleanup_and_exit e.debugLvl 1, 1)

/-- Whether the PID file is on disk after a trace of actions, starting
from presence `present`: `write_pid` creates it, `remove_pid` deletes
it, nothing else touches it. -/
def pidPresentAfter (present : Bool) : List Action → Bool
  | [] => present
  | Action.writePid :: rest => pidPresentAfter true rest
  | Action.removePid :: rest => pidPresentAfter false rest
  | _ :: rest => pidPresentAfter present rest

/-- Actions that mutate daemon state (as opposed to mere logging):
tearing down or bringing up connections, regenerating keys, touching
the PID file, re-exec, signalling the parent, or exiting. -/
def isStateMutation : Action → Bool
  | Action.closeNetwork => true
  | Action.setupNetwork => true
  | Action.regenerateKeys => true
  | Action.removePid => true
  | Action.writePid => true
  | Action.execvp => true
  | Action.killParent => true
  | Action.exit _ => true
  | _ => false

/-- The signals `tincd.c` deals with by name. -/
inductive Sig where
  | hup | int | quit | pipe | segv | term | chld | usr1 | usr2
  /-- any other signal number, caught by the catch-all loop -/
  | other (n : Nat)
deriving DecidableEq, Repr

/-- The handler functions of `tincd.c`. -/
inductive Handler where
  | sigterm | sigquit | sigsegv | sigsegvSquare | sighup | sigint
  | sigusr1 | sigusr2 | sighuh | parentExit
  /-- `SIG_IGN` -/
  | ignore
deriving DecidableEq, Repr

/-- `setup_signals()` from `tincd.c` as the handler table it installs:
every signal first gets `sighuh`, then TERM, QUIT, SEGV, HUP, INT,
USR1 and USR2 get their dedicated handlers, PIPE is ignored, and CHLD
gets `parent_exit`. -/
def setup_signals : Sig → Handler
  | Sig.term => Handler.sigterm
  | Sig.quit => Handler.sigquit
  | Sig.segv => Handler.sigsegv
  | Sig.hup => Handler.sighup
  | Sig.pipe => Handler.ignore
  | Sig.int => Handler.sigint
  | Sig.usr1 => Handler.sigusr1
  | Sig.usr2 => Handler.sigusr2
  | Sig.chld => Handler.parentExit
  | Sig.other _ => Handler.sighuh

/-- Message logged by `sigsegv_handler` (the `cp_file == NULL` branch;
with a checkpoint set it logs the same message with file and line). -/
def segvMsg : String := "Got SEGV signal; trying to re-execute."

/-- What each handler of `tincd.c` does, as the trace of actions its
body performs, at debug level `d`.  Every handler runs its logic
directly in signal context; none of them merely records a flag. -/
def handlerTrace (d : Nat) : Handler → List Action
  | Handler.sigterm =>
    (if d > 0 then [Action.syslog "Got TERM signal"] else []) ++ cleanup_and_exit d 0
  | Handler.sigquit =>
    (if d > 0 then [Action.syslog "Got QUIT signal"] else []) ++ cleanup_and_exit d 0
  | Handler.sigint =>
    (if d > 0 then [Action.syslog "Got INT signal"] else []) ++ cleanup_and_exit d 0
  | Handler.sighup =>
    (if d > 0 then [Action.syslog "Got HUP signal"] else [])
      ++ [Action.closeNetwork, Action.setupNetwork]
  | Handler.sigusr1 => [Action.dumpConnList]
  | Handler.sigusr2 =>
    (if d > 1 then [Action.syslog "Forcing new keys"] else []) ++ [Action.regenerateKeys]
  | Handler.sigsegv =>
    [Action.syslog segvMsg, Action.installSegvSquare,
     Action.closeNetwork, Action.removePid, Action.execvp]
  | Handler.sigsegvSquare =>
    [Action.syslog "Got another SEGV signal: not restarting", Action.exit 0]
  | Handler.parentExit => [Action.exit 0]
  | Handler.ignore => []
  | Handler.sighuh => [Action.syslog "Got unexpected signal"]

/-- State of the SIGSEGV machinery: whether `sigsegv_handler` has
already run (re-registering SIGSEGV to `sigsegv_square`), and whether
`sigsegv_square` has run (calling `exit`, after which nothing further
happens in this process). -/
structure SegvState where
  squareInstalled : Bool
  terminated : Bool
deriving DecidableEq, Repr

/-- SIGSEGV machinery state right after `setup_signals()`. -/
def segvInit : SegvState := ⟨false, false⟩

/-- Delivering one SIGSEGV: if the process has already exited, nothing
happens; if `sigsegv_square` is installed (a second fault before the
re-exec completed, or the `execvp` failed), it logs and exits; else
`sigsegv_handler` runs, installing the second-strike handler, closing
the network, removing the PID file and attempting `execvp`.  (If the
`execvp` succeeds the process image is replaced and a fresh process
starts from `segvInit` again; this machine covers faults arriving
before that completes.) -/
def deliverSegv (d : Nat) (s : SegvState) : SegvState × List Action :=
  if s.terminated then (s, [])
  else if s.squareInstalled then
    ({ s with terminated := true }, handlerTrace d Handler.sigsegvSquare)
  else
    ({ squareInstalled := true, terminated := false }, handlerTrace d (setup_signals Sig.segv))

/-- Deliver `n` successive SIGSEGVs from the initial state,
accumulating the trace. -/
def segvRun (d : Nat) : Nat → SegvState × List Action
  | 0 => (segvInit, [])
  | n + 1 =>
    let p := segvRun d n
    let q := deliverSegv d p.1
    (q.1, p.2 ++ q.2)

/-- Number of `execvp` (re-exec) attempts in a trace. -/
def execCount (tr : List Action) : Nat :=
  tr.countP (fun a => decide (a = Action.execvp))

/-- Handler table in the supervisor parent after `detach()`: `main`
ran `setup_signals()` before `detach()`, and the parent branch of
`detach()` re-registers SIGTERM to `parent_exit`. -/
def parentHandlers (s : Sig) : Handler :=
  if s = Sig.term then Handler.parentExit else setup_signals s

/-- What ends the supervisor parent's wait: a delivered signal, or the
`sleep(600)` running to completion. -/
inductive ParentOutcome where
  | signal (s : Sig)
  | sleepElapsed
deriving DecidableEq, Repr

/-- Seconds the parent sleeps in `detach()` (`sleep(600)`). -/
def parentSleepSeconds : Nat := 600

/-- First `exit` status in a trace, if any. -/
def traceExit : List Action → Option Nat
  | [] => none
  | Action.exit c :: _ => some c
  | _ :: rest => traceExit rest

/-- Exit status of the supervisor parent in `detach()`: it sits in
`sleep(600)`; if the sleep runs out it does `exit(1)`.  A delivered
signal runs its handler; if the handler exits, that is the parent's
status; if the handler returns, the interrupted `sleep` returns early
and the parent falls through to `exit(1)`. -/
def parentRun (d : Nat) (o : ParentOutcome) : Nat :=
  match o with
  | ParentOutcome.sleepElapsed => 1
  | ParentOutcome.signal s =>
    match traceExit (handlerTrace d (parentHandlers s)) with
    | some c => c
    | none => 1

/-! ## The observer (`top.c`)

`update(fd)` requests a `DUMP_TRAFFIC`, then reads lines, `sscanf`s
each against `"%d %d %s %llu %llu %llu %llu"` and branches on the
number `n` of converted fields: `n == 2` is the frame sentinel,
`n != 7` aborts the observer, and a 7-field line is merged into
`node_list`.  We model a received line as its whitespace-split token
list and `sscanf` by counting how many leading tokens convert.  The
four floating-point per-second rate fields of `nodestats_t` are not
modelled (real arithmetic on wall-clock intervals); the cumulative
counters and the `known` flag are. -/

/-- One `nodestats_t` entry of the observer's `node_list` (without the
four float rate fields). -/
structure NodeStats where
  name : String
  inPackets : Nat := 0
  inBytes : Nat := 0
  outPackets : Nat := 0
  outBytes : Nat := 0
  known : Bool := false
deriving DecidableEq, Repr

/-- Decimal value of a digit character, if it is one. -/
def digitVal (c : Char) : Option Nat :=
  if 48 ≤ c.toNat ∧ c.toNat ≤ 57 then some (c.toNat - 48) else none

/-- Value of a non-empty all-digit character sequence, accumulating
into `acc`; `none` on the first non-digit. -/
def digitsVal (acc : Nat) : List Char → Option Nat
  | [] => some acc
  | c :: cs =>
    match digitVal c with
    | none => none
    | some v => digitsVal (acc * 10 + v) cs

/-- A token as converted by an unsigned decimal `sscanf` specifier
(`%llu` here): a non-empty digit string. -/
def tokU64 (s : String) : Option Nat :=
  match s.data with
  | [] => none
  | cs => digitsVal 0 cs

/-- Whether a token converts under `%d`: an optional sign followed by
at least one digit. -/
def tokIntOk (s : String) : Bool :=
  match s.data with
  | [] => false
  | c :: cs =>
    if c.toNat = 45 ∨ c.toNat = 43 then (cs ≠ [] && (digitsVal 0 cs).isSome)
    else (digitsVal 0 (c :: cs)).isSome

/-- `strcmp(a, b) < 0`: byte-wise lexicographic comparison of the two
strings (tinc node names are ASCII, where byte order and character
order coincide). -/
def ltChars : List Char → List Char → Bool
  | [], [] => false
  | [], _ :: _ => true
  | _ :: _, [] => false
  | a :: as, b :: bs =>
    if a.toNat < b.toNat then true
    else if b.toNat < a.toNat then false
    else ltChars as bs

/-- `strcmp(a, b) < 0` on strings. -/
def strLt (a b : String) : Bool := ltChars a.data b.data

/-- Number of leading tokens that convert under `%llu`-style
specifiers (an unsigned decimal field). -/
def countU64 : List String → Nat
  | [] => 0
  | t :: ts =>
    match tokU64 t with
    | none => 0
    | some _ => 1 + countU64 ts

/-- The value `n` returned by
`sscanf(line, "%d %d %s %llu %llu %llu %llu", ...)`: the first two
fields must convert as decimal integers, the third (`%s`) matches any
token, the last four as unsigned decimals; conversion stops at the
first failure, and at most 7 fields are converted.  (On a fully empty
line the C `sscanf` returns `EOF` rather than 0; both land in the same
`n != 2 && n != 7` branch of `update`.) -/
def scanFields : List String → Nat
  | [] => 0
  | t1 :: rest =>
    if ¬ tokIntOk t1 then 0
    else
      match rest with
      | [] => 1
      | t2 :: rest2 =>
        if ¬ tokIntOk t2 then 1
        else
          match rest2 with
          | [] => 2
          | _t3 :: rest3 => 3 + min (countU64 rest3) 4

/-- The node name scanned from a 7-field line (`%s`, third token). -/
def lineName (ts : List String) : String := ts.getD 2 ""

/-- The `i`-th scanned counter of a 7-field line. -/
def lineStat (ts : List String) (i : Nat) : Nat := (tokU64 (ts.getD i "")).getD 0

/-- The assignments `update` performs on the found or fresh entry:
`known = true` and the four cumulative counters overwritten with the
scanned values. -/
def applyStats (nd : NodeStats) (ip ib op ob : Nat) : NodeStats :=
  { nd with known := true, inPackets := ip, inBytes := ib, outPackets := op, outBytes := ob }

/-- The search-and-insert loop of `update` over `node_list`, for the
scanned `name`: walk the list; `strcmp(name, node->name) > 0`
continues; equality updates that node in place; `strcmp < 0` allocates
a fresh zeroed entry and calls `list_insert_after(&node_list, i, found)`
— the source inserts the new entry *after* the node it stopped at.  If
the walk falls off the end (`found == NULL`), `list_insert_tail`. -/
def insertNode (name : String) (ip ib op ob : Nat) : List NodeStats → List NodeStats
  | [] => [applyStats { name := name } ip ib op ob]
  | nd :: rest =>
    if strLt nd.name name then nd :: insertNode name ip ib op ob rest
    else if name = nd.name then applyStats nd ip ib op ob :: rest
    else nd :: applyStats { name := name } ip ib op ob :: rest

/-- The receive loop of `update`: process lines until the 2-field
sentinel (or until `recvline` yields nothing more); a line that is
neither the sentinel nor a full 7-field record ends the observer with
`"Error receiving traffic information"` and `exit(1)` (returning
`none` for the node list). -/
def recvLoop : List (List String) → List NodeStats → List Action × Option (List NodeStats)
  | [], nodes => ([], some nodes)
  | l :: rest, nodes =>
    let n := scanFields l
    if n = 2 then ([], some nodes)
    else if n ≠ 7 then
      ([Action.stderr "Error receiving traffic information\n", Action.exit 1], none)
    else
      recvLoop rest (insertNode (lineName l) (lineStat l 3) (lineStat l 4)
        (lineStat l 5) (lineStat l 6) nodes)

/-- `update(fd)` from `top.c` on the received lines: first clear every
entry's `known` flag, then run the receive loop. -/
def update (lines : List (List String)) (nodes : List NodeStats) :
    List Action × Option (List NodeStats) :=
  recvLoop lines (nodes.map (fun nd => { nd with known := false }))

/-- The observer's list is strictly ordered lexicographically by node
name. -/
def sortedByName : List NodeStats → Bool
  | [] => true
  | [_] => true
  | a :: b :: rest => strLt a.name b.name && sortedByName (b :: rest)

/-! ## Theorems -/

/-- C1 (counterexample): started while a live tincd for net `v1`
holds the PID file, the daemon does print the already-running message,
but the process exit status is 0, not 1: `detach()` returns `-1` after
`write_pidfile()` fails and `main` runs `if(detach()) exit(0);`. -/
theorem claim_C1_counterexample :
    Action.stderr (alreadyRunningMsg (some "v1") 12345)
        ∈ (tincMain { netname := some "v1", existingPid := some 12345 }).1
  ∧ (tincMain { netname := some "v1", existingPid := some 12345 }).2 ≠ 1 := by
  decide

/-- C1 (amended): if at startup the PID file contains the PID of a
live process, the daemon prints "A tincd is already running for net
`<name>' with pid <pid>" and the process exits with status 0 (not 1):
`main` reads `if(detach()) exit(0);`, so the failure of `detach()` is
reported with a success status. -/
theorem claim_C1_already_running (e : Env) (nn : String) (pid : Nat)
    (hv : e.showVersion = false) (hh : e.showHelp = false) (he : e.euid = 0)
    (hk : e.killTincd = false) (hc : e.configOk = true)
    (hp : e.existingPid = some pid) (hn : e.netname = some nn) :
    Action.stderr (alreadyRunningMsg (some nn) pid) ∈ (tincMain e).1
  ∧ (tincMain e).2 = 0 := by
  simp [tincMain, detach, write_pidfile, hv, hh, he, hk, hc, hp, hn]

/-- C1 (witness): the amended theorem applied to a concrete
environment. -/
theorem claim_C1_witness :
    Action.stderr (alreadyRunningMsg (some "v1") 12345)
        ∈ (tincMain { netname := some "v1", existingPid := some 12345 }).1
  ∧ (tincMain { netname := some "v1", existingPid := some 12345 }).2 = 0 :=
  claim_C1_already_running { netname := some "v1", existingPid := some 12345 }
    "v1" 12345 rfl rfl rfl rfl rfl rfl rfl

/-- C2: invoked with `--kill`, `main` exits with `kill_other()`'s
return value.  When the PID file names a dead process (`kill` fails
with `ESRCH`) `kill_other` prints "Removing stale lock file." to
stderr, unlinks the PID file and returns 0; after a successful kill it
also unlinks the PID file and returns 0; and when `read_pid` fails it
prints the no-other-tincd message and returns 1. -/
theorem claim_C2_kill_other (e : Env) (p q : Nat) (nn : Option String) (alive : Nat → Bool)
    (hv : e.showVersion = false) (hh : e.showHelp = false) (he : e.euid = 0)
    (hk : e.killTincd = true)
    (hp : alive p = false) (hq : alive q = true) :
    tincMain e = kill_other e
  ∧ kill_other { readPid := some p, alive := alive, netname := nn } =
      ([Action.killPid p, Action.stderr staleLockMsg, Action.removePid], 0)
  ∧ pidPresentAfter true (kill_other { readPid := some p, alive := alive, netname := nn }).1 = false
  ∧ kill_other { readPid := some q, alive := alive, netname := nn } =
      ([Action.killPid q, Action.removePid], 0)
  ∧ pidPresentAfter true (kill_other { readPid := some q, alive := alive, netname := nn }).1 = false
  ∧ kill_other { readPid := none, alive := alive, netname := nn } =
      ([Action.stderr (noOtherMsg nn)], 1) := by
  refine ⟨by simp [tincMain, hv, hh, he, hk], ?_, ?_, ?_, ?_, ?_⟩ <;>
    simp [kill_other, hp, hq, pidPresentAfter]

/-- C2 (witness): the theorem applied to the spec's own scenario: PID
file holding `999999` with no such process, net `v1`; and a live
process `4242`. -/
theorem claim_C2_witness :
    kill_other { readPid := some 999999, alive := (fun n => decide (n = 4242)), netname := some "v1" } =
      ([Action.killPid 999999, Action.stderr staleLockMsg, Action.removePid], 0)
  ∧ kill_other { readPid := some 4242, alive := (fun n => decide (n = 4242)), netname := some "v1" } =
      ([Action.killPid 4242, Action.removePid], 0) :=
  ⟨(claim_C2_kill_other { killTincd := true } 999999 4242 (some "v1")
      (fun n => decide (n = 4242)) rfl rfl rfl rfl (by decide) (by decide)).2.1,
   (claim_C2_kill_other { killTincd := true } 999999 4242 (some "v1")
      (fun n => decide (n = 4242)) rfl rfl rfl rfl (by decide) (by decide)).2.2.2.1⟩

/-- C9 (counterexample): an invocation with `--version` and effective
UID 1000 prints the version banner and exits 0: the root check is
never reached, so not every non-root invocation produces the root
message and status 1. -/
theorem claim_C9_counterexample :
    ¬ ((tincMain { showVersion := true, euid := 1000 }).2 = 1
        ∧ Action.stderr rootMsg ∈ (tincMain { showVersion := true, euid := 1000 }).1) := by
  decide

/-- C9 (amended): for any invocation with a non-zero effective UID
that does not request `--help` or `--version`, the daemon prints
"You must be root to run this program. sorry." to stderr and exits
with status 1, and that is its entire trace — so this happens after
option parsing and before reading configuration, creating the PID
file, or opening any socket. -/
theorem claim_C9_root_check (e : Env)
    (hv : e.showVersion = false) (hh : e.showHelp = false) (he : e.euid ≠ 0) :
    tincMain e = ([Action.stderr rootMsg, Action.exit 1], 1) := by
  simp [tincMain, hv, hh, he]

/-- C9 (witness): the amended theorem at a concrete non-root
environment. -/
theorem claim_C9_witness :
    tincMain { euid := 1000 } = ([Action.stderr rootMsg, Action.exit 1], 1) :=
  claim_C9_root_check { euid := 1000 } rfl rfl (by decide)

/-- C3 (counterexample): the TERM handler runs `cleanup_and_exit(0)`,
which never calls `remove_pid`; a PID file present when the signal
arrives is still present at exit, contradicting the claim that it is
absent after every graceful shutdown. -/
theorem claim_C3_counterexample :
    ¬ (pidPresentAfter true (handlerTrace 0 (setup_signals Sig.term)) = false) := by
  decide

/-- C3 (amended): after a graceful shutdown (TERM, QUIT or INT, each
running `cleanup_and_exit`) the PID file has NOT been unlinked:
`cleanup_and_exit` contains no `remove_pid`, so a PID file present
beforehand remains on disk; among the handlers only `sigsegv_handler`
removes it. -/
theorem claim_C3_pidfile_not_removed (d c : Nat) :
    Action.removePid ∉ cleanup_and_exit d c
  ∧ pidPresentAfter true (handlerTrace d (setup_signals Sig.term)) = true
  ∧ pidPresentAfter true (handlerTrace d (setup_signals Sig.quit)) = true
  ∧ pidPresentAfter true (handlerTrace d (setup_signals Sig.int)) = true
  ∧ Action.removePid ∈ handlerTrace d (setup_signals Sig.segv) := by
  by_cases hd : d > 0 <;>
    simp [cleanup_and_exit, handlerTrace, setup_signals, pidPresentAfter, hd]

/-- C4 (counterexample): the TERM handler's body is not a mere flag
write: it performs state mutations (connection teardown and `exit`)
directly in signal context. -/
theorem claim_C4_counterexample :
    ¬ ((handlerTrace 0 (setup_signals Sig.term)).any isStateMutation = false) := by
  decide

/-- C4 (amended): the signal handlers of `tincd.c` perform their work
directly in signal context — there is no pending-events bitset.  TERM,
QUIT and INT tear down connections and exit from inside the handler,
HUP tears down and re-establishes the network, USR1 dumps the
connection list, USR2 regenerates keys, and SEGV unlinks the PID file
and re-execs, all inside the handler. -/
theorem claim_C4_handlers_mutate (d : Nat) :
    Action.closeNetwork ∈ handlerTrace d (setup_signals Sig.term)
  ∧ Action.exit 0 ∈ handlerTrace d (setup_signals Sig.term)
  ∧ Action.closeNetwork ∈ handlerTrace d (setup_signals Sig.quit)
  ∧ Action.closeNetwork ∈ handlerTrace d (setup_signals Sig.int)
  ∧ Action.closeNetwork ∈ handlerTrace d (setup_signals Sig.hup)
  ∧ Action.setupNetwork ∈ handlerTrace d (setup_signals Sig.hup)
  ∧ Action.dumpConnList ∈ handlerTrace d (setup_signals Sig.usr1)
  ∧ Action.regenerateKeys ∈ handlerTrace d (setup_signals Sig.usr2)
  ∧ Action.removePid ∈ handlerTrace d (setup_signals Sig.segv)
  ∧ Action.execvp ∈ handlerTrace d (setup_signals Sig.segv) := by
  by_cases hd : d > 0 <;> by_cases hd1 : d > 1 <;>
    simp [handlerTrace, setup_signals, cleanup_and_exit, hd, hd1]

/-- C5 (counterexample): the HUP handler never reparses the
configuration file (the source carries a FIXME for exactly that), so
the claimed reparse does not happen. -/
theorem claim_C5_counterexample :
    ¬ (Action.readConfig ∈ handlerTrace 0 (setup_signals Sig.hup)) := by
  decide

/-- C5 (amended): on SIGHUP the daemon tears down all network
connections and immediately calls `setup_network_connections` again,
but does NOT reparse the configuration file (the source marks the
reparse as FIXME), and the handler never exits the daemon — the
result of the renewed setup is ignored. -/
theorem claim_C5_sighup (d c : Nat) :
    Action.closeNetwork ∈ handlerTrace d (setup_signals Sig.hup)
  ∧ Action.setupNetwork ∈ handlerTrace d (setup_signals Sig.hup)
  ∧ Action.readConfig ∉ handlerTrace d (setup_signals Sig.hup)
  ∧ Action.exit c ∉ handlerTrace d (setup_signals Sig.hup) := by
  by_cases hd : d > 0 <;> simp [handlerTrace, setup_signals, hd]

/-- Delivering a SIGSEGV after `sigsegv_square` has exited the
process does nothing. -/
theorem deliverSegv_terminated (d : Nat) (s : SegvState) (h : s.terminated = true) :
    deliverSegv d s = (s, []) := by
  simp [deliverSegv, h]

/-- `sigsegv_handler` does the same at every debug level. -/
theorem handlerTrace_segv (d : Nat) :
    handlerTrace d (setup_signals Sig.segv) =
      [Action.syslog segvMsg, Action.installSegvSquare,
       Action.closeNetwork, Action.removePid, Action.execvp] := rfl

/-- `sigsegv_square` does the same at every debug level. -/
theorem handlerTrace_square (d : Nat) :
    handlerTrace d Handler.sigsegvSquare =
      [Action.syslog "Got another SEGV signal: not restarting", Action.exit 0] := rfl

/-- The first SIGSEGV runs `sigsegv_handler`. -/
theorem segvRun_one (d : Nat) :
    segvRun d 1 = (⟨true, false⟩, handlerTrace d (setup_signals Sig.segv)) := rfl

/-- The second SIGSEGV runs `sigsegv_square`, which exits. -/
theorem segvRun_two (d : Nat) :
    segvRun d 2 =
      (⟨true, true⟩,
        handlerTrace d (setup_signals Sig.segv) ++ handlerTrace d Handler.sigsegvSquare) := rfl

/-- From the third SIGSEGV on, nothing further happens: the run of
`k + 2` deliveries equals the run of 2. -/
theorem segvRun_stable (d k : Nat) : segvRun d (k + 2) = segvRun d 2 := by
  induction k with
  | zero => rfl
  | succ k ih =>
    show segvRun d ((k + 2) + 1) = segvRun d 2
    rw [segvRun, ih, segvRun_two]
    rfl

/-- C6: however many SIGSEGVs are delivered, at most one `execvp`
re-exec attempt ever occurs.  The first SIGSEGV installs the
second-strike handler, closes network connections, unlinks the PID
file and attempts `execvp`; a second SIGSEGV before the re-exec
completes runs `sigsegv_square`, which logs and terminates the
process, after which nothing further happens. -/
theorem claim_C6_single_reexec (d n m : Nat) (hm : 2 ≤ m) :
    execCount (segvRun d n).2 ≤ 1
  ∧ (segvRun d 1).2 = handlerTrace d (setup_signals Sig.segv)
  ∧ Action.installSegvSquare ∈ (segvRun d 1).2
  ∧ Action.closeNetwork ∈ (segvRun d 1).2
  ∧ Action.removePid ∈ (segvRun d 1).2
  ∧ Action.execvp ∈ (segvRun d 1).2
  ∧ (segvRun d m).2 =
      handlerTrace d (setup_signals Sig.segv) ++ handlerTrace d Handler.sigsegvSquare
  ∧ Action.exit 0 ∈ (segvRun d m).2
  ∧ execCount (segvRun d m).2 = 1 := by
  obtain ⟨k, rfl⟩ : ∃ k, m = k + 2 := ⟨m - 2, by omega⟩
  refine ⟨?_, rfl, ?_, ?_, ?_, ?_, ?_, ?_, ?_⟩
  · match n with
    | 0 => rw [show (segvRun d 0).2 = ([] : List Action) from rfl]; decide
    | 1 => rw [segvRun_one, handlerTrace_segv]; decide
    | j + 2 => rw [segvRun_stable, segvRun_two, handlerTrace_segv, handlerTrace_square]; decide
  · rw [segvRun_one, handlerTrace_segv]; decide
  · rw [segvRun_one, handlerTrace_segv]; decide
  · rw [segvRun_one, handlerTrace_segv]; decide
  · rw [segvRun_one, handlerTrace_segv]; decide
  · rw [segvRun_stable, segvRun_two]
  · rw [segvRun_stable, segvRun_two, handlerTrace_segv, handlerTrace_square]; decide
  · rw [segvRun_stable, segvRun_two, handlerTrace_segv, handlerTrace_square]; decide

/-- C6 (witness): five successive SIGSEGVs still yield exactly one
re-exec attempt, and the second-strike handler has exited. -/
theorem claim_C6_witness :
    execCount (segvRun 0 5).2 ≤ 1
  ∧ (segvRun 0 1).2 = handlerTrace 0 (setup_signals Sig.segv)
  ∧ Action.installSegvSquare ∈ (segvRun 0 1).2
  ∧ Action.closeNetwork ∈ (segvRun 0 1).2
  ∧ Action.removePid ∈ (segvRun 0 1).2
  ∧ Action.execvp ∈ (segvRun 0 1).2
  ∧ (segvRun 0 5).2 =
      handlerTrace 0 (setup_signals Sig.segv) ++ handlerTrace 0 Handler.sigsegvSquare
  ∧ Action.exit 0 ∈ (segvRun 0 5).2
  ∧ execCount (segvRun 0 5).2 = 1 :=
  claim_C6_single_reexec 0 5 5 (by decide)

/-- C7 (counterexample): when the child dies early the parent's
SIGCHLD runs `parent_exit`, which calls `exit(0)` — a success status,
not the failure status the claim requires. -/
theorem claim_C7_counterexample :
    ¬ (parentRun 0 (ParentOutcome.signal Sig.chld) ≠ 0) := by
  decide

/-- C7 (amended): the supervisor parent registers `parent_exit`
(exit status 0) for SIGTERM and sleeps up to 600 seconds, exiting 1
if the sleep elapses; but SIGCHLD is bound to the same `parent_exit`
by `setup_signals`, so a child dying early also makes the parent exit
with status 0, not a failure status. -/
theorem claim_C7_parent (d : Nat) :
    parentRun d (ParentOutcome.signal Sig.term) = 0
  ∧ parentRun d ParentOutcome.sleepElapsed = 1
  ∧ parentRun d (ParentOutcome.signal Sig.chld) = 0
  ∧ parentHandlers Sig.term = Handler.parentExit
  ∧ parentHandlers Sig.chld = Handler.parentExit
  ∧ parentSleepSeconds = 600 := by
  refine ⟨rfl, rfl, rfl, rfl, rfl, rfl⟩

/-- C8: processing a `DUMP_TRAFFIC` frame that reports node "b"
before node "a" from an empty list leaves the observer's list in the
order b, a — not lexicographically sorted.  The search loop calls
`list_insert_after(&node_list, i, found)` at the first entry whose
name is greater than the new name, placing the new entry *after* that
entry; keeping the list sorted (as the spec states, and as upstream
tinc does with `list_insert_before`) requires inserting before it. -/
theorem claim_C8_unsorted_insert :
    update [["18", "72", "b", "1", "1", "1", "1"],
            ["18", "72", "a", "1", "1", "1", "1"],
            ["18", "72"]] [] =
      ([], some [⟨"b", 1, 1, 1, 1, true⟩, ⟨"a", 1, 1, 1, 1, true⟩])
  ∧ sortedByName [⟨"b", 1, 1, 1, 1, true⟩, ⟨"a", 1, 1, 1, 1, true⟩] = false := by
  constructor
  · rfl
  · decide

/-- C10: while reading a traffic dump, a line whose field count under
`"%d %d %s %llu %llu %llu %llu"` is exactly 2 ends the frame (the
remaining lines are not processed and the node list is returned), and
a line whose field count is neither 2 nor 7 makes the observer print
"Error receiving traffic information" and exit with status 1. -/
theorem claim_C10_sentinel_and_error
    (l lBad : List String) (rest restB : List (List String)) (nodes nodesB : List NodeStats)
    (h2 : scanFields l = 2) (hB2 : scanFields lBad ≠ 2) (hB7 : scanFields lBad ≠ 7) :
    update (l :: rest) nodes =
      ([], some (nodes.map (fun nd => { nd with known := false })))
  ∧ update (lBad :: restB) nodesB =
      ([Action.stderr "Error receiving traffic information\n", Action.exit 1], none) := by
  constructor
  · simp [update, recvLoop, h2]
  · simp [update, recvLoop, hB2, hB7]

/-- C10 (witness): the theorem at the sentinel line "18 72", a junk
line, and an unread trailing record line. -/
theorem claim_C10_witness :
    update [["18", "72"], ["18", "72", "x", "1", "1", "1", "1"]] [] = ([], some [])
  ∧ update [["junk"]] [] =
      ([Action.stderr "Error receiving traffic information\n", Action.exit 1], none) :=
  claim_C10_sentinel_and_error ["18", "72"] ["junk"]
    [["18", "72", "x", "1", "1", "1", "1"]] [] [] []
    (by decide) (by decide) (by decide)

end Tinc
